import Mathlib

/-!
Verification of the Gemini File Search service (`file_search_service.py`,
`app.py`) against its natural-language specification.

The Python code is shallowly embedded: remote client calls are modelled as
oracles of type `Except Fault α` supplied in an environment, wall-clock time
as an explicit schedule of elapsed values (one per poll-loop iteration) in
whole seconds (ℤ), and Python truthiness of optional strings as `truthy`.
-/

namespace GeminiFileSearch

/-- A Python exception.  `apiError` stands for `google.genai.errors.APIError`
(the class caught by the direct-upload fallback), `osError` for `OSError`
(the class caught around `os.unlink`), `exc` for any other `Exception`.
The payload is the exception's `str()` rendering. -/
inductive Fault where
  | apiError (msg : String)
  | osError (msg : String)
  | exc (msg : String)
deriving DecidableEq, Repr

/-- Python `str(exc)`. -/
def Fault.str : Fault → String
  | .apiError m => m
  | .osError m => m
  | .exc m => m

/-- Python truthiness of an optional string: `None` and `""` are falsy. -/
def truthy : Option String → Bool
  | none => false
  | some s => s ≠ ""

/-! ## `os.path.splitext` and `_detect_mime_type`

`os.path.splitext` (posix): split at the last `.` that lies after the last
`/` separator, unless every character between the separator and that dot is
itself a dot (leading dots of the basename never start an extension). -/

/-- Python `str.rfind`: index of the last occurrence of `c`, `-1` if absent. -/
def rfind (l : List Char) (c : Char) : Int :=
  l.enum.foldl (fun acc p => if p.2 = c then (p.1 : Int) else acc) (-1)

/-- `os.path.splitext` on a posix path, from CPython `genericpath._splitext`
with `sep = '/'`, `extsep = '.'`. -/
def splitext (p : String) : String × String :=
  let l := p.data
  let sepIndex := rfind l '/'
  let extIndex := rfind l '.'
  if sepIndex < extIndex then
    -- skip all leading dots of the basename: an extension exists only if some
    -- character strictly between sepIndex and extIndex is not a dot
    let between := (l.drop (sepIndex + 1).toNat).take (extIndex - sepIndex - 1).toNat
    if between.any (fun ch => ch ≠ '.') then
      (⟨l.take extIndex.toNat⟩, ⟨l.drop extIndex.toNat⟩)
    else (p, "")
  else (p, "")

/-- Python `str.lower` restricted to ASCII (the only characters the MIME
table inspects). -/
def pyLower (s : String) : String :=
  ⟨s.data.map Char.toLower⟩

/-- Embedding of `_detect_mime_type` (`file_search_service.py:107-128`). -/
def detect_mime_type (file_name : String) (provided_type : Option String) : String :=
  if truthy provided_type then provided_type.getD ("") else
  let file_ext := pyLower (splitext file_name).2
  if file_ext = ".pdf" then "application/pdf"
  else if file_ext = ".txt" then "text/plain"
  else if file_ext = ".text" then "text/plain"
  else "application/octet-stream"

/-! ## Operation snapshots and the poll loop

`upload_single_file` (`file_search_service.py:203-234`) polls the operation:

    while not getattr(current, "done", False):
        elapsed = time.time() - start_time
        if elapsed > timeout_seconds: return <timed out>
        if status_callback and (elapsed - last_status_update >= status_interval):
            status_callback(elapsed); last_status_update = elapsed
        time.sleep(wait_time)
        wait_time = min(wait_time * 2, max_wait_time)
        current = client.operations.get(current)

Wall-clock time is modelled as a schedule: the list of `elapsed` values read
at the start of successive iterations, in whole seconds (ℤ).  The fetches
performed by `client.operations.get` are an oracle list; an `Except.error`
entry is a call that raises. -/

/-- The `error` attribute of a done operation: optional `code` / `message`
attributes (absent attribute = `none`). -/
structure OpError where
  code? : Option String
  message? : Option String
deriving DecidableEq, Repr

/-- The `response` attribute of a done operation. -/
structure OpResponse where
  document_name? : Option String
deriving DecidableEq, Repr

/-- A snapshot of a long-running operation as the code probes it with
`getattr`: `name`, `done`, `error`, `response`. -/
structure OpSnapshot where
  name? : Option String
  done : Bool
  error? : Option OpError
  response? : Option OpResponse
deriving DecidableEq, Repr

/-- `timeout_seconds = 15 * 60` (`file_search_service.py:204`). -/
def timeout_seconds : Int := 15 * 60

/-- `status_interval = 10.0` (`file_search_service.py:207`). -/
def status_interval : Int := 10

/-- `max_wait_time = 32` (`file_search_service.py:209`). -/
def max_wait_time : Nat := 32

/-- Terminal outcome of the poll loop, carrying the emitted progress events
(the `elapsed` values passed to `status_callback`, in order) and the number
of `operations.get` calls performed. -/
inductive PollResult where
  | ok (final : OpSnapshot) (events : List Int) (fetches : Nat)
  | timedOut (events : List Int) (fetches : Nat)
  | fault (f : Fault) (events : List Int) (fetches : Nat)
  | outOfFuel (events : List Int) (fetches : Nat)
deriving DecidableEq, Repr

/-- Events emitted by a poll-loop run. -/
def PollResult.events : PollResult → List Int
  | .ok _ ev _ => ev
  | .timedOut ev _ => ev
  | .fault _ ev _ => ev
  | .outOfFuel ev _ => ev

/-- Number of `operations.get` calls performed by a poll-loop run. -/
def PollResult.fetches : PollResult → Nat
  | .ok _ _ n => n
  | .timedOut _ n => n
  | .fault _ _ n => n
  | .outOfFuel _ n => n

/-- Embedding of the poll loop of `upload_single_file`
(`file_search_service.py:211-234`).  `cb` is whether a `status_callback` was
supplied, `current` the operation snapshot in hand, `snaps` the oracle of
`operations.get` results, `sched` the schedule of `elapsed` readings, `last`
the `last_status_update` accumulator, `wait` the current `wait_time`, and
`events`/`fetches` the emitted events and fetch count so far. -/
def pollLoop (cb : Bool) (current : OpSnapshot) (snaps : List (Except Fault OpSnapshot))
    (sched : List Int) (last : Int) (wait : Nat) (events : List Int) (fetches : Nat) :
    PollResult :=
  if current.done then .ok current events fetches
  else
    match sched, snaps with
    | [], _ => .outOfFuel events fetches
    | _, [] => .outOfFuel events fetches
    | elapsed :: schedRest, fetchRes :: snapsRest =>
      if timeout_seconds < elapsed then .timedOut events fetches
      else
        let fire := cb && decide (status_interval ≤ elapsed - last)
        let events' := if fire then events ++ [elapsed] else events
        let last' := if fire then elapsed else last
        -- time.sleep(wait); wait_time = min(wait_time * 2, max_wait_time)
        let wait' := min (wait * 2) max_wait_time
        match fetchRes with
        | .error f => .fault f events' (fetches + 1)
        | .ok next => pollLoop cb next snapsRest schedRest last' wait' events' (fetches + 1)

/-! ## `upload_single_file` -/

/-- The Streamlit uploaded file object: `.name`, `.type` (may be `None`). -/
structure UploadedFile where
  name : String
  type? : Option String
deriving DecidableEq, Repr

/-- `UploadResult` dataclass (`file_search_service.py:16-22`). -/
structure UploadResult where
  file_name : String
  success : Bool
  error_message : Option String := none
deriving DecidableEq, Repr

/-- The remote document fetched during verification; the code reads
`document.state` directly and compares it with `DocumentState.ACTIVE`
(a string-valued enum, so the state is modelled as its string). -/
structure RemoteDocument where
  state : String
deriving DecidableEq, Repr

/-- Environment of one `upload_single_file` call: the uploaded file and one
oracle per external effect, in program order.  `sched` and `fetchResults`
drive the poll loop.  `unlinkOk` is whether `os.unlink` on the temporary
file succeeds (it raises `OSError` otherwise); `fileDeleteOk` likewise for
`client.files.delete`. -/
structure Env where
  file : UploadedFile
  getvalue : Except Fault Unit
  direct : Except Fault OpSnapshot
  filesUpload : Except Fault (Option String)
  importFile : Except Fault OpSnapshot
  sched : List Int
  fetchResults : List (Except Fault OpSnapshot)
  docGet : Except Fault RemoteDocument
  unlinkOk : Bool
  fileDeleteOk : Bool
  hasCallback : Bool
deriving Repr

/-- Outcome of the `try:` body of `upload_single_file`, before the outer
`except Exception` handler and the `finally:` block run.  `stuck` is a model
artifact: the poll-loop oracle ran out of schedule entries or fetch results
while still polling. -/
inductive BodyOut where
  | ret (r : UploadResult)
  | raised (f : Fault)
  | stuck
deriving DecidableEq, Repr

/-- Local state of one call: whether the temporary file currently exists on
disk, whether `tmp_path` was assigned, the `staged_file_name` variable, the
progress events relayed so far and the fetch count. -/
structure BodyState where
  tmpOnDisk : Bool
  tmpPathSet : Bool
  staged : Option String
  events : List Int
  fetchCount : Nat
deriving DecidableEq, Repr

/-- Rendering of a done operation's error
(`file_search_service.py:239-243`). -/
def renderOpError (e : OpError) : String :=
  (e.code?.getD ("UNKNOWN")) ++ (" | ") ++ (e.message?.getD (""))

/-- `file_search_service.py:195-265`: from the operation returned by staging
to the returned `UploadResult` — operation-name check, poll loop, error
check, and document-state verification. -/
def afterOperation (env : Env) (op : OpSnapshot) (st : BodyState) : BodyOut × BodyState :=
  if truthy op.name? = false then
    (.ret ⟨env.file.name, false, some ("Operation has no name attribute.")⟩, st)
  else
    match pollLoop env.hasCallback op env.fetchResults env.sched 0 2 [] 0 with
    | .outOfFuel ev n => (.stuck, { st with events := ev, fetchCount := n })
    | .fault f ev n => (.raised f, { st with events := ev, fetchCount := n })
    | .timedOut ev n =>
      (.ret ⟨env.file.name, false, some ("Indexing timed out after 900 seconds.")⟩,
        { st with events := ev, fetchCount := n })
    | .ok final ev n =>
      let st' := { st with events := ev, fetchCount := n }
      match final.error? with
      | some e => (.ret ⟨env.file.name, false, some (renderOpError e)⟩, st')
      | none =>
        let document_name := match final.response? with
          | some r => r.document_name?
          | none => none
        if truthy document_name then
          match env.docGet with
          | .ok doc =>
            if doc.state = "ACTIVE" then (.ret ⟨env.file.name, true, none⟩, st')
            else
              (.ret ⟨env.file.name, false, some ("Document state: " ++ doc.state)⟩, st')
          | .error _ =>
            -- If we can't verify, assume success if no error
            (.ret ⟨env.file.name, true, none⟩, st')
        else (.ret ⟨env.file.name, true, none⟩, st')

/-- The `try:` body of `upload_single_file` (`file_search_service.py:152-265`):
persist bytes to the temporary file (`tmp_path` is assigned only after
`tmp.write` returns), detect MIME type, stage via direct upload with
fallback to the Files API import, then `afterOperation`. -/
def runBody (env : Env) : BodyOut × BodyState :=
  -- tempfile.NamedTemporaryFile(delete=False) creates the file on disk
  match env.getvalue with
  | .error f => (.raised f, ⟨true, false, none, [], 0⟩)
  | .ok () =>
    -- tmp_path = tmp.name
    let st0 : BodyState := ⟨true, true, none, [], 0⟩
    -- mime_type = _detect_mime_type(uploaded_file.name, uploaded_file.type)
    match env.direct with
    | .ok op => afterOperation env op st0
    | .error (.apiError _) =>
      -- except genai_errors.APIError: fall back to Files API import
      match env.filesUpload with
      | .error f => (.raised f, st0)
      | .ok resName? =>
        let st1 := { st0 with staged := resName? }
        if truthy resName? = false then
          (.ret ⟨env.file.name, false,
            some ("Files API did not return a resource name.")⟩, st1)
        else
          match env.importFile with
          | .error f => (.raised f, st1)
          | .ok op => afterOperation env op st1
    | .error f => (.raised f, st0)

/-- Observable result of a whole `upload_single_file` call: its outcome after
the outer `except Exception` handler, and the post-`finally` disk state. -/
structure RunResult where
  out : BodyOut
  tmpOnDisk : Bool
  stagedDeleteAttempted : Bool
  events : List Int
  fetchCount : Nat
deriving DecidableEq, Repr

/-- Embedding of `upload_single_file` (`file_search_service.py:131-287`):
the body, the outer `except Exception as exc` handler (which returns a
failed `UploadResult` carrying `str(exc)`), and the `finally:` block (which
unlinks the temporary file if `tmp_path` is set and the file exists,
swallowing `OSError`, then attempts deletion of any staged file, swallowing
everything). -/
def upload_single_file (env : Env) : RunResult :=
  let bo := runBody env
  let out := match bo.1 with
    | .raised f => BodyOut.ret ⟨env.file.name, false, some f.str⟩
    | x => x
  let st := bo.2
  -- finally: if tmp_path and os.path.exists(tmp_path): try os.unlink ...
  let tmpOnDisk :=
    if st.tmpPathSet && st.tmpOnDisk then
      if env.unlinkOk then false else true
    else st.tmpOnDisk
  -- finally: if staged_file_name: try client.files.delete ...
  let stagedDeleteAttempted := truthy st.staged
  ⟨out, tmpOnDisk, stagedDeleteAttempted, st.events, st.fetchCount⟩

/-! ## `list_store_documents` -/

/-- A raw remote document as probed with `getattr`: optional `name`,
`display_name`, `state` attributes. -/
structure RawDoc where
  name? : Option String
  display_name? : Option String
  state? : Option String
deriving DecidableEq, Repr

/-- `DocumentInfo` dataclass (`file_search_service.py:44-50`). -/
structure DocumentInfo where
  name : String
  display_name : String
  state : Option String := none
deriving DecidableEq, Repr

/-- `file_search_service.py:66-72`: the `DocumentInfo` built from one raw
document, with the `getattr` defaults `""` / `"Unknown"` / `"UNKNOWN"`. -/
def rawToInfo (d : RawDoc) : DocumentInfo :=
  ⟨d.name?.getD (""), d.display_name?.getD ("Unknown"), some (d.state?.getD ("UNKNOWN"))⟩

/-- Embedding of `list_store_documents` (`file_search_service.py:53-77`).
The remote listing is an iterator modelled as a stream of yields; an
`Except.error` entry is the iterator raising at that point, so nothing after
it is reached.  The `try`/`except Exception: pass` wraps the whole loop and
the already-appended `documents` are returned. -/
def list_store_documents (stream : List (Except Fault RawDoc)) : List DocumentInfo :=
  match stream with
  | [] => []
  | .error _ :: _ => []
  | .ok d :: rest => rawToInfo d :: list_store_documents rest

/-! ## `clear_store` and the app's clear-store handler -/

/-- `ClearStoreResult` dataclass (`file_search_service.py:25-30`): note that
`errors: list[str] = None`, so the `errors` field is `None` unless the
failure branch fills it. -/
structure ClearStoreResult where
  deleted : Bool := false
  errors : Option (List String) := none
deriving DecidableEq, Repr

/-- Embedding of `clear_store` (`file_search_service.py:317-331`), over the
outcome of the single `client.file_search_stores.delete` call. -/
def clear_store (deleteOutcome : Except Fault Unit) : ClearStoreResult :=
  match deleteOutcome with
  | .ok () => { deleted := true }
  | .error exc => { deleted := false, errors := some [exc.str] }

/-- A Python attribute value, as far as the clear-store handler needs it. -/
inductive PyVal where
  | bool (b : Bool)
  | optList (l : Option (List String))
deriving DecidableEq, Repr

/-- Python attribute lookup on a `ClearStoreResult`: the dataclass declares
exactly the fields `deleted` and `errors`, so any other name raises
`AttributeError`. -/
def ClearStoreResult.getattr (r : ClearStoreResult) : String → Option PyVal
  | "deleted" => some (.bool r.deleted)
  | "errors" => some (.optList r.errors)
  | _ => none

/-- What the app's clear-store button handler does with a result. -/
inductive HandlerOutcome where
  | successMsg (s : String)
  | errorMsg (s : String)
  | infoMsg (s : String)
  | attributeError (attr : String)
deriving DecidableEq, Repr

/-- Embedding of the clear-store button handler (`app.py:211-219`): it first
evaluates `result.removed > 0`, so the attribute read happens on every
invocation before any branch is taken. -/
def clear_store_handler (r : ClearStoreResult) : HandlerOutcome :=
  match r.getattr ("removed") with
  | none => .attributeError ("removed")
  | some v =>
    let positive := match v with
      | .bool b => b
      | .optList l => (l.getD []).length > 0
    if positive then .successMsg ("Store cleared")
    else match r.errors with
      | some (e :: es) => .errorMsg (String.intercalate (", ") (e :: es))
      | _ => .infoMsg ("Store is already empty")

/-! ## `upload_files` (the sequential batch orchestrator in `app.py`) -/

/-- Per-file oracle for one iteration of the `upload_files` loop: whether
`document_exists` returns a truthy document, and whether the
`upload_single_file` result has `success=True`. -/
structure FileOutcome where
  isDup : Bool
  succeeds : Bool
deriving DecidableEq, Repr

/-- Final counters and session state after `upload_files` returns. -/
structure BatchState where
  successes : Nat
  failures : Nat
  skipped : Nat
  files_ready : Bool
deriving DecidableEq, Repr

/-- The counting loop of `upload_files` (`app.py:105-183`): a skipped
duplicate increments `skipped` and `continue`s; otherwise the upload result
increments `successes` or `failures`. -/
def uploadLoop (skip_duplicates : Bool) (files : List FileOutcome)
    (successes failures skipped : Nat) : Nat × Nat × Nat :=
  match files with
  | [] => (successes, failures, skipped)
  | f :: rest =>
    if f.isDup && skip_duplicates then
      uploadLoop skip_duplicates rest successes failures (skipped + 1)
    else if f.succeeds then
      uploadLoop skip_duplicates rest (successes + 1) failures skipped
    else
      uploadLoop skip_duplicates rest successes (failures + 1) skipped

/-- Embedding of `upload_files` (`app.py:88-204`).  `ready0` is the value of
`st.session_state.files_ready` on entry.  The empty-input guard sets the
flag false and returns; the summary sets it true when `successes > 0`, sets
it false when nothing succeeded and something failed (or nothing was
skipped), and leaves it untouched when every file was skipped. -/
def upload_files (files : List FileOutcome) (skip_duplicates : Bool) (ready0 : Bool) :
    BatchState :=
  if files.isEmpty then ⟨0, 0, 0, false⟩
  else
    let c := uploadLoop skip_duplicates files 0 0 0
    let successes := c.1
    let failures := c.2.1
    let skipped := c.2.2
    if 0 < successes then ⟨successes, failures, skipped, true⟩
    else if 0 < skipped ∧ failures = 0 then ⟨successes, failures, skipped, ready0⟩
    else ⟨successes, failures, skipped, false⟩

/-! ## Concrete fixtures -/

/-- Whether a body outcome is an exception escaping to the caller. -/
def BodyOut.isRaised : BodyOut → Bool
  | .raised _ => true
  | _ => false

/-- A pending operation snapshot. -/
def opNotDone : OpSnapshot :=
  ⟨some ("operations/op1"), false, none, none⟩

/-- A completed operation snapshot with no error and no response. -/
def opDone : OpSnapshot :=
  ⟨some ("operations/op1"), true, none, none⟩

/-- A completed operation snapshot referencing a document. -/
def opDoneWithDoc : OpSnapshot :=
  ⟨some ("operations/op1"), true, none, some ⟨some ("stores/s/documents/d1")⟩⟩

/-- An environment whose only fault is raised while persisting the incoming
bytes (`uploaded_file.getvalue()` / `tmp.write` inside the `with` block). -/
def envWriteFault : Env where
  file := ⟨"notes.txt", some ("text/plain")⟩
  getvalue := .error (.exc ("disk full"))
  direct := .ok opDone
  filesUpload := .ok none
  importFile := .ok opDone
  sched := []
  fetchResults := []
  docGet := .error (.exc ("unreachable"))
  unlinkOk := true
  fileDeleteOk := true
  hasCallback := false

/-- A fault-free environment whose operation completes immediately and
references a document whose fetched state is `ACTIVE`. -/
def envVerifyActive : Env where
  file := ⟨"report.pdf", some ("application/pdf")⟩
  getvalue := .ok ()
  direct := .ok opDoneWithDoc
  filesUpload := .ok none
  importFile := .ok opDone
  sched := []
  fetchResults := []
  docGet := .ok ⟨"ACTIVE"⟩
  unlinkOk := true
  fileDeleteOk := true
  hasCallback := false

/-- Like `envVerifyActive` but the fetched document state is `FAILED`. -/
def envVerifyFailed : Env :=
  { envVerifyActive with docGet := .ok ⟨"FAILED"⟩ }

/-- Like `envVerifyActive` but the verification fetch itself raises. -/
def envVerifyFault : Env :=
  { envVerifyActive with docGet := .error (.exc ("permission denied")) }

/-- An environment whose operation never reports done and whose first
elapsed reading already exceeds the timeout bound. -/
def envTimeout : Env where
  file := ⟨"big.pdf", none⟩
  getvalue := .ok ()
  direct := .ok opNotDone
  filesUpload := .ok none
  importFile := .ok opDone
  sched := [901]
  fetchResults := [.ok opNotDone]
  docGet := .error (.exc ("unreachable"))
  unlinkOk := true
  fileDeleteOk := true
  hasCallback := true

/-! ## Theorems -/

/-- Claim C8: `_detect_mime_type` returns the provided type whenever it is
non-empty; otherwise it maps the lower-cased filename extension `.pdf` to
`application/pdf`, `.txt`/`.text` to `text/plain`, and every other extension
to `application/octet-stream`.  (The function is a total Lean `def`, so
purity and totality hold by construction.) -/
theorem detect_mime_type_spec (file_name : String) (provided_type : Option String) :
    (∀ t, provided_type = some t → t ≠ "" →
      detect_mime_type file_name provided_type = t) ∧
    ((provided_type = none ∨ provided_type = some "") →
      ((pyLower (splitext file_name).2 = ".pdf" →
          detect_mime_type file_name provided_type = "application/pdf") ∧
       (pyLower (splitext file_name).2 = ".txt" ∨
          pyLower (splitext file_name).2 = ".text" →
          detect_mime_type file_name provided_type = "text/plain") ∧
       (pyLower (splitext file_name).2 ≠ ".pdf" →
        pyLower (splitext file_name).2 ≠ ".txt" →
        pyLower (splitext file_name).2 ≠ ".text" →
          detect_mime_type file_name provided_type = "application/octet-stream"))) := by
  constructor
  · rintro t rfl ht
    simp [detect_mime_type, truthy, ht]
  · rintro (rfl | rfl)
    · refine ⟨fun h => ?_, fun h => ?_, fun h1 h2 h3 => ?_⟩ <;>
        first
          | (simp only [detect_mime_type, truthy, ite_false, Bool.false_eq_true]
             rcases h with h | h <;> simp [h])
          | simp [detect_mime_type, truthy, h]
          | simp [detect_mime_type, truthy, h1, h2, h3]
    · refine ⟨fun h => ?_, fun h => ?_, fun h1 h2 h3 => ?_⟩ <;>
        first
          | (simp only [detect_mime_type, truthy, ite_false, Bool.false_eq_true]
             rcases h with h | h <;> simp [h])
          | simp [detect_mime_type, truthy, h]
          | simp [detect_mime_type, truthy, h1, h2, h3]

/-- Witness for C8: concrete evaluations through `detect_mime_type_spec`. -/
theorem detect_mime_type_spec_witness :
    detect_mime_type "Report.PDF" none = "application/pdf" ∧
    detect_mime_type "data.bin" (some "text/csv") = "text/csv" ∧
    detect_mime_type "notes.TXT" none = "text/plain" ∧
    detect_mime_type "archive.zip" none = "application/octet-stream" :=
  ⟨((detect_mime_type_spec "Report.PDF" none).2 (Or.inl rfl)).1 (by decide),
   (detect_mime_type_spec "data.bin" (some "text/csv")).1 "text/csv" rfl (by decide),
   ((detect_mime_type_spec "notes.TXT" none).2 (Or.inl rfl)).2.1 (Or.inl (by decide)),
   ((detect_mime_type_spec "archive.zip" none).2 (Or.inl rfl)).2.2
     (by decide) (by decide) (by decide)⟩

/-- Claim C4, counterexample: on a successful remote delete, `clear_store`
returns `errors = none` (Python `None`, the dataclass default), not the
empty list the claim states. -/
theorem clear_store_success_errors_none_counterexample :
    clear_store (.ok ()) = { deleted := true, errors := none } ∧
    clear_store (.ok ()) ≠ { deleted := true, errors := some [] } := by
  decide

/-- Claim C4, amended: a successful remote delete yields
`{deleted := true, errors := none}` (the `errors` field keeps its `None`
default rather than an empty list); a failing remote delete yields
`{deleted := false, errors := [str(exc)]}`. -/
theorem clear_store_result_amended :
    clear_store (.ok ()) = { deleted := true, errors := none } ∧
    ∀ f, clear_store (.error f) = { deleted := false, errors := some [Fault.str f] } := by
  exact ⟨rfl, fun f => rfl⟩

/-- Claim C5, counterexample: when the listing iterator yields one document
and then raises, `list_store_documents` returns that document, not the
empty sequence. -/
theorem list_store_documents_prefix_counterexample :
    list_store_documents
        [.ok ⟨some ("d1"), some ("a.pdf"), some ("ACTIVE")⟩, .error (.exc ("boom"))]
      = [⟨"d1", "a.pdf", some ("ACTIVE")⟩] ∧
    list_store_documents
        [.ok ⟨some ("d1"), some ("a.pdf"), some ("ACTIVE")⟩, .error (.exc ("boom"))]
      ≠ ([] : List DocumentInfo) := by
  decide

/-- Claim C5, amended: a fault during iteration is swallowed and
`list_store_documents` returns exactly the documents yielded before the
fault (the empty sequence only when the fault precedes the first yield);
a fault-free listing returns every document. -/
theorem list_store_documents_prefix_amended (items : List RawDoc) (f : Fault)
    (rest : List (Except Fault RawDoc)) :
    list_store_documents (items.map .ok ++ .error f :: rest) = items.map rawToInfo ∧
    list_store_documents (items.map .ok) = items.map rawToInfo := by
  induction items with
  | nil => exact ⟨rfl, rfl⟩
  | cons d ds ih =>
    exact ⟨by simpa [list_store_documents] using ih.1,
           by simpa [list_store_documents] using ih.2⟩

/-- Claim C10: every `ClearStoreResult` exposes only the fields `deleted`
and `errors`, so the clear-store button handler, which reads
`result.removed` before any branch, raises `AttributeError` on every value
`clear_store` can return (and indeed on every `ClearStoreResult`). -/
theorem clear_store_handler_attribute_error (o : Except Fault Unit)
    (r : ClearStoreResult) :
    clear_store_handler (clear_store o) = .attributeError ("removed") ∧
    clear_store_handler r = .attributeError ("removed") := by
  exact ⟨rfl, rfl⟩

/-- Each iteration of the `upload_files` loop increments exactly one of the
three counters. -/
lemma uploadLoop_sum (skip : Bool) (files : List FileOutcome) :
    ∀ s f k, (uploadLoop skip files s f k).1 + (uploadLoop skip files s f k).2.1 +
      (uploadLoop skip files s f k).2.2 = s + f + k + files.length := by
  induction files with
  | nil => intro s f k; simp [uploadLoop]
  | cons file rest ih =>
    intro s f k
    simp only [uploadLoop]
    split
    · rw [ih]; simp [List.length_cons]; omega
    · split
      · rw [ih]; simp [List.length_cons]; omega
      · rw [ih]; simp [List.length_cons]; omega

/-- Claim C3, counterexample: a batch of one file that is skipped as a
duplicate, run while `st.session_state.files_ready` is already `true`,
ends with `successes = 0` yet `files_ready` still `true` — the summary
branch for an all-skipped batch never assigns the flag, so final
`files_ready = true` is not equivalent to `succeeded > 0`. -/
theorem upload_files_ready_flag_counterexample :
    (upload_files [⟨true, true⟩] true true).successes = 0 ∧
    (upload_files [⟨true, true⟩] true true).files_ready = true := by
  decide

/-- Claim C3, amended: for any batch the final counts satisfy
`skipped + succeeded + failed = N`, and the final `files_ready` flag is
`true` exactly when `succeeded > 0` or the batch left the flag untouched
(no success, no failure, at least one skip) and it was already `true` on
entry. -/
theorem upload_files_invariant_amended (files : List FileOutcome)
    (skip_duplicates ready0 : Bool) :
    (upload_files files skip_duplicates ready0).skipped +
        (upload_files files skip_duplicates ready0).successes +
        (upload_files files skip_duplicates ready0).failures = files.length ∧
    (upload_files files skip_duplicates ready0).files_ready =
      (decide (0 < (upload_files files skip_duplicates ready0).successes) ||
        (ready0 && decide (0 < (upload_files files skip_duplicates ready0).skipped) &&
          decide ((upload_files files skip_duplicates ready0).failures = 0))) := by
  have hsum := uploadLoop_sum skip_duplicates files 0 0 0
  by_cases hemp : files.isEmpty
  · have hnil : files = [] := List.isEmpty_iff.mp hemp
    subst hnil
    simp [upload_files]
  · simp only [upload_files, hemp, Bool.false_eq_true, if_false]
    set c := uploadLoop skip_duplicates files 0 0 0 with hc
    obtain ⟨s, f, k⟩ := c
    simp only [Nat.zero_add] at hsum
    by_cases h1 : 0 < s
    · rw [if_pos h1]
      refine ⟨?_, ?_⟩
      · simp only
        omega
      · simp [decide_eq_true h1]
    · have hs : s = 0 := by omega
      subst hs
      rw [if_neg h1]
      by_cases h2 : 0 < k ∧ f = 0
      · rw [if_pos h2]
        obtain ⟨hk, hf⟩ := h2
        subst hf
        refine ⟨?_, ?_⟩
        · simp only
          omega
        · simp [hk]
      · rw [if_neg h2]
        refine ⟨?_, ?_⟩
        · simp only
          omega
        · have hor : ¬ (0 < k) ∨ ¬ (f = 0) := by tauto
          rcases hor with h | h <;> simp [h]

/-- Claim C2: the claim states the temporary file is gone on every exit
path, and the cleanup structure of `upload_single_file` (pre-declared
`tmp_path = None`, `finally:` unlink) shows that is the intent — but
`tmp_path = tmp.name` is only assigned after `tmp.write(...)` returns, so
when persisting the incoming bytes faults the already-created
`NamedTemporaryFile(delete=False)` is never unlinked: the call returns a
failed `UploadResult` while the temporary file is still on disk. -/
theorem upload_single_file_tmp_leak_on_write_fault :
    (upload_single_file envWriteFault).out
      = .ret ⟨"notes.txt", false, some ("disk full")⟩ ∧
    (upload_single_file envWriteFault).tmpOnDisk = true := by
  decide

/-- Claim C9: `upload_single_file` never propagates an exception: whatever
the oracle outcomes of every remote call (and of the local file
operations), the outcome after the outer handler is never a raised fault —
every fault is reduced to a returned `UploadResult` whose
`error_message` is a string (`str(exc)` or a fixed literal). -/
theorem upload_single_file_never_raises (env : Env) :
    ((upload_single_file env).out).isRaised = false := by
  simp only [upload_single_file]
  rcases h : (runBody env).1 with r | f
  · simp [h, BodyOut.isRaised]
  · simp [h, BodyOut.isRaised]
  · simp [h, BodyOut.isRaised]

/-- Claim C6: when the operation completes with `done = true`, no error
field and a document reference, `upload_single_file` fetches the document
and succeeds exactly when its state is `ACTIVE`; any other observed state
yields a failed result whose message names that state; a fault during the
verification fetch is swallowed and the result is success. -/
theorem upload_single_file_verification (env : Env) (op : OpSnapshot) (dn : String)
    (hgv : env.getvalue = .ok ())
    (hdir : env.direct = .ok op)
    (hname : truthy op.name? = true)
    (hdone : op.done = true)
    (herr : op.error? = none)
    (hresp : op.response? = some ⟨some dn⟩)
    (hdn : dn ≠ "") :
    (∀ s, env.docGet = .ok ⟨s⟩ → s = "ACTIVE" →
      (upload_single_file env).out = .ret ⟨env.file.name, true, none⟩) ∧
    (∀ s, env.docGet = .ok ⟨s⟩ → s ≠ "ACTIVE" →
      (upload_single_file env).out
        = .ret ⟨env.file.name, false, some (("Document state: ") ++ s)⟩) ∧
    (∀ f, env.docGet = .error f →
      (upload_single_file env).out = .ret ⟨env.file.name, true, none⟩) := by
  have hpoll : pollLoop env.hasCallback op env.fetchResults env.sched 0 2 [] 0
      = .ok op [] 0 := by
    rw [pollLoop.eq_def]
    simp [hdone]
  have hdnt : truthy (some dn) = true := by
    simp [truthy, hdn]
  refine ⟨?_, ?_, ?_⟩
  · intro s hdg hs
    subst hs
    simp [upload_single_file, runBody, hgv, hdir, afterOperation, hname, hpoll,
      herr, hresp, hdnt, hdg]
  · intro s hdg hs
    simp [upload_single_file, runBody, hgv, hdir, afterOperation, hname, hpoll,
      herr, hresp, hdnt, hdg, hs]
  · intro f hdg
    simp [upload_single_file, runBody, hgv, hdir, afterOperation, hname, hpoll,
      herr, hresp, hdnt, hdg]

/-- Witness for C6: the three verification outcomes at concrete
environments. -/
theorem upload_single_file_verification_witness :
    (upload_single_file envVerifyActive).out = .ret ⟨"report.pdf", true, none⟩ ∧
    (upload_single_file envVerifyFailed).out
      = .ret ⟨"report.pdf", false, some (("Document state: ") ++ ("FAILED"))⟩ ∧
    (upload_single_file envVerifyFault).out = .ret ⟨"report.pdf", true, none⟩ :=
  ⟨(upload_single_file_verification envVerifyActive opDoneWithDoc
      ("stores/s/documents/d1") rfl rfl (by decide) rfl rfl rfl (by decide)).1
      "ACTIVE" rfl rfl,
   (upload_single_file_verification envVerifyFailed opDoneWithDoc
      ("stores/s/documents/d1") rfl rfl (by decide) rfl rfl rfl (by decide)).2.1
      "FAILED" rfl (by decide),
   (upload_single_file_verification envVerifyFault opDoneWithDoc
      ("stores/s/documents/d1") rfl rfl (by decide) rfl rfl rfl (by decide)).2.2
      (.exc ("permission denied")) rfl⟩

/-- If every fetched snapshot is still pending, the poll loop reaches the
first schedule entry strictly above the timeout bound and returns
`timedOut`, having fetched once per earlier iteration. -/
lemma pollLoop_timeout_of_never_done (cb : Bool) :
    ∀ (sched : List Int) (snaps : List (Except Fault OpSnapshot)) (cur : OpSnapshot)
      (last : Int) (wait : Nat) (ev : List Int) (n : Nat),
      cur.done = false →
      (∀ e ∈ snaps, ∃ s, e = .ok s ∧ s.done = false) →
      sched.length ≤ snaps.length →
      (∃ t ∈ sched, timeout_seconds < t) →
      ∃ ev', pollLoop cb cur snaps sched last wait ev n
        = .timedOut ev'
            (n + (sched.takeWhile (fun t => decide (t ≤ timeout_seconds))).length) := by
  intro sched
  induction sched with
  | nil =>
    intro snaps cur last wait ev n hd hs hlen hex
    simp at hex
  | cons t rest ih =>
    intro snaps cur last wait ev n hd hs hlen hex
    cases snaps with
    | nil => simp at hlen
    | cons fr srest =>
      obtain ⟨s0, hfr, hs0⟩ := hs fr (List.mem_cons_self _ _)
      subst hfr
      rw [pollLoop.eq_def]
      simp only [hd, Bool.false_eq_true, if_false]
      by_cases ht : timeout_seconds < t
      · rw [if_pos ht]
        refine ⟨ev, ?_⟩
        have hnotle : ¬ (t ≤ timeout_seconds) := not_le.mpr ht
        simp [List.takeWhile_cons, hnotle]
      · rw [if_neg ht]
        have hle : t ≤ timeout_seconds := not_lt.mp ht
        have hex' : ∃ t' ∈ rest, timeout_seconds < t' := by
          rcases hex with ⟨t', ht', hgt⟩
          rcases List.mem_cons.mp ht' with rfl | hmem
          · exact absurd hgt ht
          · exact ⟨t', hmem, hgt⟩
        have hs' : ∀ e ∈ srest, ∃ s, e = .ok s ∧ s.done = false :=
          fun e he => hs e (List.mem_cons_of_mem _ he)
        have hlen' : rest.length ≤ srest.length := by
          simpa using hlen
        obtain ⟨ev2, heq⟩ := ih srest s0
          (if cb && decide (status_interval ≤ t - last) then t else last)
          (min (wait * 2) max_wait_time)
          (if cb && decide (status_interval ≤ t - last) then ev ++ [t] else ev)
          (n + 1) hs0 hs' hlen' hex'
        refine ⟨ev2, ?_⟩
        have hTW : (List.takeWhile (fun x => decide (x ≤ timeout_seconds)) (t :: rest)).length
            = (List.takeWhile (fun x => decide (x ≤ timeout_seconds)) rest).length + 1 := by
          simp [List.takeWhile_cons, hle]
        rw [hTW, show n + ((List.takeWhile (fun x => decide (x ≤ timeout_seconds)) rest).length + 1)
            = (n + 1) + (List.takeWhile (fun x => decide (x ≤ timeout_seconds)) rest).length
          from by omega]
        exact heq

/-- Claim C7: when the operation never reports done and the elapsed clock
passes the 15-minute bound, `upload_single_file` returns the timed-out
failure (its message is the fixed timeout string, with no remote error
payload) and performs no fetch beyond the iterations whose timeout check
passed. -/
theorem upload_single_file_timeout (env : Env) (op : OpSnapshot)
    (hgv : env.getvalue = .ok ())
    (hdir : env.direct = .ok op)
    (hname : truthy op.name? = true)
    (hdone : op.done = false)
    (hnever : ∀ e ∈ env.fetchResults, ∃ s, e = .ok s ∧ s.done = false)
    (hlen : env.sched.length ≤ env.fetchResults.length)
    (hex : ∃ t ∈ env.sched, timeout_seconds < t) :
    (upload_single_file env).out
      = .ret ⟨env.file.name, false, some ("Indexing timed out after 900 seconds.")⟩ ∧
    (upload_single_file env).fetchCount
      = (env.sched.takeWhile (fun t => decide (t ≤ timeout_seconds))).length := by
  obtain ⟨ev', hpoll⟩ := pollLoop_timeout_of_never_done env.hasCallback env.sched
    env.fetchResults op 0 2 [] 0 hdone hnever hlen hex
  constructor <;>
    simp [upload_single_file, runBody, hgv, hdir, afterOperation, hname, hpoll]

/-- Witness for C7: with a single elapsed reading of 901 seconds the call
times out after zero fetches. -/
theorem upload_single_file_timeout_witness :
    (upload_single_file envTimeout).out
      = .ret ⟨"big.pdf", false, some ("Indexing timed out after 900 seconds.")⟩ ∧
    (upload_single_file envTimeout).fetchCount = 0 :=
  upload_single_file_timeout envTimeout opNotDone rfl rfl (by decide) rfl
    (by
      intro e he
      simp only [envTimeout, List.mem_singleton] at he
      subst he
      exact ⟨opNotDone, rfl, rfl⟩)
    (by decide) (by decide)

/-- Claim C1, counterexample: a canonical run with zero-latency fetches
(elapsed readings 0, 2, 6, 14, 30 — exactly the partial sums of the sleeps
2, 4, 8, 16) where the operation reports done on the 5th fetch.  The loop
emits only the two events 14 and 30, yet `⌊30 / 10⌋ = 3`: the code emits an
event only when at least 10 seconds passed since the previous event and
then advances the marker to the full current elapsed value, so backoff
sleeps longer than the interval skip reporting windows and the count falls
short of `⌊elapsed / 10⌋`. -/
theorem pollLoop_event_count_counterexample :
    pollLoop true opNotDone
        [.ok opNotDone, .ok opNotDone, .ok opNotDone, .ok opNotDone, .ok opDone]
        [0, 2, 6, 14, 30] 0 2 [] 0 = .ok opDone [14, 30] 5 ∧
    ¬ ((pollLoop true opNotDone
        [.ok opNotDone, .ok opNotDone, .ok opNotDone, .ok opNotDone, .ok opDone]
        [0, 2, 6, 14, 30] 0 2 [] 0).events.length
      = ((30 : Int) / status_interval).toNat) := by
  decide

/-- The poll loop never fetches past the first snapshot reporting done: if
the snapshot at index `k` is done, at most `k + 1` fetches happen. -/
lemma pollLoop_fetches_le (cb : Bool) :
    ∀ (sched : List Int) (snaps : List (Except Fault OpSnapshot)) (cur : OpSnapshot)
      (last : Int) (wait : Nat) (ev : List Int) (n k : Nat) (s : OpSnapshot),
      snaps.get? k = some (.ok s) → s.done = true →
      (pollLoop cb cur snaps sched last wait ev n).fetches ≤ n + k + 1 := by
  intro sched
  induction sched with
  | nil =>
    intro snaps cur last wait ev n k s hk hdone
    rw [pollLoop.eq_def]
    by_cases hd : cur.done
    · simp [hd, PollResult.fetches]
      try omega
    · simp [hd, PollResult.fetches]
      try omega
  | cons t rest ih =>
    intro snaps cur last wait ev n k s hk hdone
    rw [pollLoop.eq_def]
    by_cases hd : cur.done
    · simp [hd, PollResult.fetches]
      try omega
    · simp only [hd, Bool.false_eq_true, if_false]
      cases snaps with
      | nil =>
        simp [PollResult.fetches]
        try omega
      | cons fr srest =>
        by_cases ht : timeout_seconds < t
        · simp only [if_pos ht, PollResult.fetches]
          omega
        · simp only [if_neg ht]
          cases fr with
          | error f =>
            simp [PollResult.fetches]
            try omega
          | ok next =>
            cases k with
            | zero =>
              have hnext : next = s := by
                simpa using hk
              subst hnext
              have : ∀ ev2 n2, (pollLoop cb next srest rest
                  (if cb && decide (status_interval ≤ t - last) then t else last)
                  (min (wait * 2) max_wait_time) ev2 n2).fetches = n2 := by
                intro ev2 n2
                rw [pollLoop.eq_def]
                simp [hdone, PollResult.fetches]
              rw [this]
              try omega
            | succ k' =>
              have hk' : srest.get? k' = some (.ok s) := by
                simpa using hk
              have := ih srest next
                (if cb && decide (status_interval ≤ t - last) then t else last)
                (min (wait * 2) max_wait_time)
                (if cb && decide (status_interval ≤ t - last) then ev ++ [t] else ev)
                (n + 1) k' s hk' hdone
              calc (pollLoop cb next srest rest _ _ _ (n + 1)).fetches
                  ≤ (n + 1) + k' + 1 := this
                _ ≤ n + (k' + 1) + 1 := by omega

/-- Every event the poll loop appends is at least `status_interval` above
the previous marker, and the marker tracks the last event. -/
lemma pollLoop_events_chain (cb : Bool) :
    ∀ (sched : List Int) (snaps : List (Except Fault OpSnapshot)) (cur : OpSnapshot)
      (last : Int) (wait : Nat) (ev : List Int) (n : Nat) (l0 : Int),
      List.Chain' (fun a b => a + status_interval ≤ b) (l0 :: ev) →
      (l0 :: ev).getLast? = some last →
      List.Chain' (fun a b => a + status_interval ≤ b)
        (l0 :: (pollLoop cb cur snaps sched last wait ev n).events) := by
  intro sched
  induction sched with
  | nil =>
    intro snaps cur last wait ev n l0 hch hl
    rw [pollLoop.eq_def]
    by_cases hd : cur.done
    · simpa [hd, PollResult.events] using hch
    · simpa [hd, PollResult.events] using hch
  | cons t rest ih =>
    intro snaps cur last wait ev n l0 hch hl
    rw [pollLoop.eq_def]
    by_cases hd : cur.done
    · simpa [hd, PollResult.events] using hch
    · simp only [hd, Bool.false_eq_true, if_false]
      cases snaps with
      | nil => simpa [PollResult.events] using hch
      | cons fr srest =>
        by_cases ht : timeout_seconds < t
        · simpa [if_pos ht, PollResult.events] using hch
        · simp only [if_neg ht]
          by_cases hf : (cb && decide (status_interval ≤ t - last)) = true
          · have hR : last + status_interval ≤ t := by
              have := of_decide_eq_true (Bool.and_elim_right hf)
              omega
            have hch' : List.Chain' (fun a b => a + status_interval ≤ b)
                (l0 :: (ev ++ [t])) := by
              rw [show l0 :: (ev ++ [t]) = (l0 :: ev) ++ [t] from rfl]
              refine List.chain'_append.mpr ⟨hch, List.chain'_singleton t, ?_⟩
              intro x hx y hy
              rw [hl] at hx
              simp at hx hy
              omega
            have hl' : (l0 :: (ev ++ [t])).getLast? = some t :=
              List.getLast?_concat (l0 :: ev)
            cases fr with
            | error f =>
              simpa [hf, PollResult.events] using hch'
            | ok next =>
              have := ih srest next t (min (wait * 2) max_wait_time)
                (ev ++ [t]) (n + 1) l0 hch' hl'
              simpa [hf] using this
          · have hfb : (cb && decide (status_interval ≤ t - last)) = false :=
              Bool.not_eq_true _ ▸ (by simpa using hf)
            cases fr with
            | error f =>
              simpa [hfb, PollResult.events] using hch
            | ok next =>
              have := ih srest next last (min (wait * 2) max_wait_time)
                ev (n + 1) l0 hch hl
              simpa [hfb] using this

/-- In a chain whose steps each ascend by at least `status_interval`, the
last element is at least the start plus `status_interval` per step. -/
lemma chain_getLast_bound :
    ∀ (ev : List Int) (l0 : Int),
      List.Chain' (fun a b => a + status_interval ≤ b) (l0 :: ev) →
      ∀ e ∈ ev.getLast?, l0 + status_interval * (ev.length : Int) ≤ e := by
  intro ev
  induction ev with
  | nil =>
    intro l0 h e he
    simp at he
  | cons a rest ih =>
    intro l0 h e he
    rcases List.chain'_cons.mp h with ⟨h1, h2⟩
    cases rest with
    | nil =>
      simp at he
      subst he
      simp only [List.length_cons, List.length_nil]
      have : status_interval * ((0 : Nat) + 1 : Int) = status_interval := by ring
      simp [status_interval] at h1 ⊢
      omega
    | cons b rs =>
      have he' : e ∈ (b :: rs).getLast? := by
        simpa [List.getLast?_cons_cons] using he
      have hrec := ih a h2 e he'
      simp only [List.length_cons] at hrec ⊢
      simp [status_interval] at h1 hrec ⊢
      omega

/-- Claim C1, amended: for an operation whose `k+1`-st fetched snapshot
reports done, the poll loop performs at most `k + 1` fetches; each emitted
progress event carries an elapsed value at least 10 seconds above the
previous one (and above the initial marker 0), hence the emitted values are
monotonically non-decreasing and their number is at most
`⌊last emitted elapsed / 10⌋` — but, the counterexample shows, not always
exactly `⌊elapsed / 10⌋`. -/
theorem pollLoop_progress_amended (cb : Bool) (cur : OpSnapshot)
    (snaps : List (Except Fault OpSnapshot)) (sched : List Int) (k : Nat)
    (s : OpSnapshot) (hk : snaps.get? k = some (.ok s)) (hdone : s.done = true) :
    (pollLoop cb cur snaps sched 0 2 [] 0).fetches ≤ k + 1 ∧
    List.Chain' (fun a b => a + status_interval ≤ b)
      (0 :: (pollLoop cb cur snaps sched 0 2 [] 0).events) ∧
    List.Chain' (fun a b => a ≤ b)
      ((pollLoop cb cur snaps sched 0 2 [] 0).events) ∧
    ∀ e ∈ ((pollLoop cb cur snaps sched 0 2 [] 0).events).getLast?,
      status_interval * (((pollLoop cb cur snaps sched 0 2 [] 0).events).length : Int)
        ≤ e := by
  have hfet := pollLoop_fetches_le cb sched snaps cur 0 2 [] 0 k s hk hdone
  have hch := pollLoop_events_chain cb sched snaps cur 0 2 [] 0 0
    (List.chain'_singleton 0) (by simp)
  refine ⟨by simpa using hfet, hch, ?_, ?_⟩
  · have htail := hch.tail
    simp only [List.tail_cons] at htail
    exact htail.imp (fun a b hab => by simp [status_interval] at hab; omega)
  · intro e he
    have := chain_getLast_bound _ 0 hch e he
    simpa using this

/-- Witness for C1 (amended): a two-iteration run completing on the second
fetch, with one progress event. -/
theorem pollLoop_progress_amended_witness :
    (pollLoop true opNotDone [.ok opNotDone, .ok opDone] [0, 12] 0 2 [] 0).fetches
        ≤ 1 + 1 ∧
    List.Chain' (fun a b => a + status_interval ≤ b)
      (0 :: (pollLoop true opNotDone [.ok opNotDone, .ok opDone]
        [0, 12] 0 2 [] 0).events) ∧
    List.Chain' (fun a b => a ≤ b)
      ((pollLoop true opNotDone [.ok opNotDone, .ok opDone] [0, 12] 0 2 [] 0).events) ∧
    ∀ e ∈ ((pollLoop true opNotDone [.ok opNotDone, .ok opDone]
        [0, 12] 0 2 [] 0).events).getLast?,
      status_interval * (((pollLoop true opNotDone [.ok opNotDone, .ok opDone]
        [0, 12] 0 2 [] 0).events).length : Int) ≤ e :=
  pollLoop_progress_amended true opNotDone [.ok opNotDone, .ok opDone] [0, 12] 1
    opDone rfl rfl

end GeminiFileSearch
